import Mathlib

/-!
Verification development for the news-scraper ingestion engine
(`app/scheduler/tasks.py`, `app/scrapers/content_extractor.py`,
`app/api/routes.py`).

Conventions of the shallow embedding:
* Machine time (Python `datetime`) is modelled as absolute seconds since an
  epoch, type `Int`.  `pytz` timezone conversion of an instant does not move
  the instant, so `ensure_romania_timezone` is the identity on this model.
* Python dict fields are modelled by `DVal` (absent key / explicit `None` /
  string), so that `d[k]`, `d.get(k)` and `d.get(k, default)` keep their
  exact Python semantics, including `KeyError` on `d[k]` for an absent key
  and `None` results for keys explicitly bound to `None`.
* Side effects that the claims observe (database contents, counters, calls
  into the bounded extractor, lock states) are threaded explicitly; `print`
  logging is a no-op and is dropped.
* External collaborators (the HTML soup parsing strategies, the threaded
  content extractor, `difflib.SequenceMatcher.ratio`) are parameters of the
  embedded functions, so every theorem quantifies over their behaviour.
-/

/-! ## Generic Python value helpers -/

/-- Truthiness of a Python optional string (`None` and `""` are falsy). -/
def pyTruthy : Option String → Bool
  | some s => !s.isEmpty
  | none => false

/-- Python `s.lower()` (character-list implementation so that concrete
instances evaluate by kernel reduction; ASCII case folding). -/
def strToLower (s : String) : String := String.mk (s.toList.map Char.toLower)

/-- Python `s.strip()`: drop whitespace from both ends (character-list
implementation for kernel reduction). -/
def strTrim (s : String) : String :=
  String.mk
    (((s.toList.dropWhile Char.isWhitespace).reverse.dropWhile
        Char.isWhitespace).reverse)

/-- Decimal parse of a non-empty all-digit string (character-list
implementation for kernel reduction). -/
def strToNat? (s : String) : Option Nat :=
  if !s.toList.isEmpty && s.toList.all Char.isDigit then
    some (s.toList.foldl (fun n c => n * 10 + (c.toNat - 48)) 0)
  else none

/-- A field of a Python dict: the key may be absent, bound to `None`,
or bound to a string. -/
inductive DVal
  | absent
  | null
  | str (s : String)
deriving DecidableEq, Repr

/-- Python `d.get(k)` (default `None`): the value as an optional string. -/
def DVal.get? : DVal → Option String
  | .str s => some s
  | _ => none

/-- Python `d.get(k, default)` where the default is an optional string: an
absent key yields the default, an explicit `None` stays `None`, and a string
value is returned. -/
def DVal.getD : DVal → Option String → Option String
  | .absent, dflt => dflt
  | .null, _ => none
  | .str s, _ => some s

/-- Python `d[k]`: raises `KeyError` (modelled as `Except.error`) for an
absent key, otherwise returns the (possibly `None`) value. -/
def DVal.indexed : DVal → Except Unit (Option String)
  | .absent => .error ()
  | .null => .ok none
  | .str s => .ok (some s)

/-- Truthiness of a raw dict field (`if article_data.get(k):`). -/
def DVal.truthy (v : DVal) : Bool := pyTruthy v.get?

/-! ## Source Run Guard (`_scraper_locks`, tasks.py lines 10-14)

The guard map holds one `threading.Lock` per source.  `Lock.acquire` with
`blocking=False` is an atomic test-and-set, so any interleaving of two
concurrent acquire calls is observationally one of the two serial orders;
the model therefore works with serialized calls on an explicit lock-state
map. -/

/-- The three source ids keyed in `_scraper_locks`. -/
inductive ScraperId
  | biziday
  | adevarul
  | facebook
deriving DecidableEq, Repr

/-- Lock-state map: `true` means the source's lock is held (running). -/
def GuardState := ScraperId → Bool

/-- `_scraper_locks[s].acquire(blocking=False)`: returns whether the lock
was acquired together with the new lock state. -/
def tryBegin (g : GuardState) (s : ScraperId) : Bool × GuardState :=
  if g s then (false, g)
  else (true, fun x => if x = s then true else g x)

/-- `_scraper_locks[s].release()` (the `finally:` path of every runner). -/
def releaseGuard (g : GuardState) (s : ScraperId) : GuardState :=
  fun x => if x = s then false else g x

/-- `get_scraper_status` (tasks.py lines 300-312): probes each lock
non-blockingly; a held lock reports `"running"`, otherwise `"idle"`. -/
def get_scraper_status (g : GuardState) (s : ScraperId) : String :=
  if g s then "running" else "idle"

/-! ## Scraper runners (tasks.py lines 16-298)

Each runner first try-acquires its guard and returns immediately when the
guard is held.  Everything after a successful acquire sits inside
`try: ... finally: lock.release()`; no statement in the `try` block touches
`_scraper_locks`, so the runner body is abstracted to its outcome.  The
early `return` for a missing script file and every `except` branch are all
inside the `try`, hence all flow through the `finally` release. -/

/-- Observable outcomes of the Biziday/Adevarul runner body
(script missing / parsed article list / bad JSON / no output /
non-zero exit / `TimeoutExpired` / any other exception). -/
inductive NewsBodyOutcome
  | scriptMissing
  | parsedList (n : Nat)
  | jsonDecodeError
  | noOutput
  | exitNonzero
  | timedOut
  | raised
deriving DecidableEq, Repr

/-- `run_biziday_scraper` (tasks.py lines 16-70), guard behaviour: returns
the final lock state and whether the run was granted.  The body outcome
(whatever happened inside the `try`) never reaches the lock map; the
`finally` releases unconditionally. -/
def run_biziday_scraper (g : GuardState) (body : NewsBodyOutcome) :
    GuardState × Bool :=
  let acq := tryBegin g .biziday
  if acq.1 then
    -- try: <body> finally: _scraper_locks['biziday'].release()
    match body with
    | _ => (releaseGuard acq.2 .biziday, true)
  else
    -- acquire failed: print and return, nothing released
    (acq.2, false)

/-- `run_adevarul_scraper` (tasks.py lines 72-124): same guard discipline
with the `adevarul` lock. -/
def run_adevarul_scraper (g : GuardState) (body : NewsBodyOutcome) :
    GuardState × Bool :=
  let acq := tryBegin g .adevarul
  if acq.1 then
    match body with
    | _ => (releaseGuard acq.2 .adevarul, true)
  else
    (acq.2, false)

/-- Outcomes of the Facebook runner body (Selenium path, HTTP fallback
path, or an exception anywhere inside the outer `try`). -/
inductive FbBodyOutcome
  | seleniumSuccess (created : Bool)
  | seleniumError
  | fallbackSuccess (created : Bool)
  | fallbackError
  | raised
deriving DecidableEq, Repr

/-- Result dict returned by `run_facebook_scraper`. -/
inductive FbRunResult
  | alreadyRunning
  | noProfileInput
  | finished (body : FbBodyOutcome)
deriving DecidableEq, Repr

/-- `run_facebook_scraper` (tasks.py lines 126-298), guard behaviour: the
`{'error': 'Facebook scraper is already running'}` early return happens
before the `try`, while the missing-input check and the whole body sit
inside `try: ... finally: _scraper_locks['facebook'].release()`. -/
def run_facebook_scraper (g : GuardState) (profile_input : Option String)
    (body : FbBodyOutcome) : GuardState × FbRunResult :=
  let acq := tryBegin g .facebook
  if acq.1 then
    match profile_input with
    | none => (releaseGuard acq.2 .facebook, .noProfileInput)
    | some _ => (releaseGuard acq.2 .facebook, .finished body)
  else
    (acq.2, .alreadyRunning)

/-- Whether a finished run result is reported with `'success': True`
(mirrors the dicts built at tasks.py lines 181-198, 245-262). -/
def FbRunResult.isSuccess : FbRunResult → Bool
  | .finished (.seleniumSuccess _) => true
  | .finished (.fallbackSuccess _) => true
  | _ => false

/-- `scrape_facebook` endpoint (`app/api/routes.py` lines 766-791): rejects
a missing or empty `profile_input` with HTTP 400 before touching the guard,
otherwise calls `run_facebook_scraper` and maps its structured result to
200 on success and 400 otherwise. -/
def scrape_facebook (g : GuardState) (profile_input : Option String)
    (body : FbBodyOutcome) : GuardState × Nat :=
  match profile_input with
  | none => (g, 400)
  | some s =>
    let s := strTrim s
    if s.isEmpty then (g, 400)
    else
      let r := run_facebook_scraper g (some s) body
      (r.1, if r.2.isSuccess then 200 else 400)

/-! ## Scheduler (`start_scheduler_in_context`, tasks.py lines 1011-1115) -/

/-- One entry of the config dict returned by `get_scraping_config`. -/
structure SourceConfig where
  frequency_minutes : Nat
  enabled : Bool
  source_id : Option Nat
  original_name : String
deriving DecidableEq, Repr

/-- Which runner function a scheduler job invokes. -/
inductive ScraperRunner
  | bizidayRunner
  | adevarulRunner
  | facebookRunner
deriving DecidableEq, Repr

/-- Trigger of a registered job: recurring interval (minutes) or one-off
delayed run (seconds after start). -/
inductive JobTrigger
  | interval (minutes : Nat)
  | oneOff (delaySeconds : Nat)
deriving DecidableEq, Repr

/-- A job registered on the `BackgroundScheduler`. -/
structure SchedulerJob where
  id : String
  runner : ScraperRunner
  trigger : JobTrigger
deriving DecidableEq, Repr

/-- The per-source registration step of the configuration loop (tasks.py
lines 1043-1082): disabled sources are skipped, `biziday` and `adevarul`
get recurring jobs, and the `facebook` branch is an explicit `pass` (manual
execution only); any other name registers nothing. -/
def registerSourceJob (testing_mode : Bool) (acc : List SchedulerJob)
    (entry : String × SourceConfig) : List SchedulerJob :=
  let (source_name, sc) := entry
  if !sc.enabled then acc
  else
    let interval_minutes := if testing_mode then 2 else sc.frequency_minutes
    if source_name = "biziday" then
      acc ++ [⟨"biziday_scraper", .bizidayRunner, .interval interval_minutes⟩]
    else if source_name = "adevarul" then
      acc ++ [⟨"adevarul_scraper", .adevarulRunner, .interval interval_minutes⟩]
    else if source_name = "facebook" then
      acc  -- pass: Facebook is never auto-scheduled
    else
      acc

/-- The full set of jobs `start_scheduler_in_context` registers: the
recurring jobs from the config loop plus the two one-off warm-up jobs
(tasks.py lines 1089-1100); Facebook is excluded from both. -/
def start_scheduler_jobs (config : List (String × SourceConfig))
    (testing_mode : Bool) : List SchedulerJob :=
  (config.foldl (registerSourceJob testing_mode) []) ++
    [⟨"biziday_initial", .bizidayRunner, .oneOff 30⟩,
     ⟨"adevarul_initial", .adevarulRunner, .oneOff 40⟩]

/-! ## Content extractor (`app/scrapers/content_extractor.py`) -/

/-- Whether the first character list is a prefix of the second. -/
def charsPrefix : List Char → List Char → Bool
  | [], _ => true
  | _ :: _, [] => false
  | p :: ps, c :: cs => p = c && charsPrefix ps cs

/-- Whether the pattern occurs anywhere in the character list. -/
def charsContains (pat : List Char) : List Char → Bool
  | [] => pat.isEmpty
  | c :: cs => charsPrefix pat (c :: cs) || charsContains pat cs

/-- Python's substring test `pat in s`. -/
def containsSub (s pat : String) : Bool := charsContains pat.toList s.toList

/-- One whitespace-collapsing pass: `re.sub(r'\s+', ' ', text.strip())`. -/
def collapseWs (s : String) : String :=
  " ".intercalate ((s.split Char.isWhitespace).filter (fun p => !p.isEmpty))

/-- Case-insensitive match of a pattern at the head of the input; returns
the remaining characters on success. -/
def matchesCI : List Char → List Char → Option (List Char)
  | [], rest => some rest
  | _ :: _, [] => none
  | p :: ps, c :: cs => if p.toLower = c.toLower then matchesCI ps cs else none

/-- Left-to-right scan of `re.sub('(p1|p2|...)', '', text, flags=IGNORECASE)`:
at each position the alternatives are tried in order; a match is deleted and
scanning resumes after it.  Fuel-bounded (fuel = input length suffices since
every pattern is non-empty). -/
def removeCIAux (pats : List (List Char)) : Nat → List Char → List Char
  | 0, cs => cs
  | _ + 1, [] => []
  | n + 1, c :: cs =>
    match pats.findSome? (fun p => matchesCI p (c :: cs)) with
    | some rest => removeCIAux pats n rest
    | none => c :: removeCIAux pats n cs

/-- Delete every case-insensitive occurrence of the given patterns. -/
def removeCIPats (pats : List String) (s : String) : String :=
  String.mk (removeCIAux (pats.map String.toList) s.length s.toList)

/-- `clean_text` (content_extractor.py lines 25-34): collapse whitespace,
strip the Romanian boilerplate phrases and media prefixes, strip again. -/
def clean_text (text : String) : String :=
  if text.isEmpty then ""
  else
    let t := collapseWs text
    let t := removeCIPats
      ["Citește mai mult", "Citeste mai mult", "Continuă citirea",
       "Vezi mai mult"] t
    let t := removeCIPats ["Foto:", "Photo:", "Video:", "FOTO:", "VIDEO:"] t
    strTrim t

/-- Python `s.rfind(pat)` over code points: the largest index at which
`pat` occurs, `-1` when it does not. -/
def rfindSub (s pat : String) : Int :=
  match ((List.range s.length).filter
      (fun i => (s.drop i).startsWith pat)).getLast? with
  | some i => (i : Int)
  | none => -1

/-- `generate_summary_from_content` (content_extractor.py lines 250-276).
The float comparisons `idx > max_length * 0.7` / `* 0.8` are modelled
exactly over `Rat`. -/
def generate_summary_from_content (content : String) (max_length : Nat) :
    String :=
  if content.isEmpty then ""
  else
    let c := clean_text content
    if c.length ≤ max_length then c
    else
      let truncated := c.take max_length
      let sentence_end := rfindSub truncated ". "
      -- `sentence_end > max_length * 0.7`, exactly, cross-multiplied
      if 10 * sentence_end > (max_length : Int) * 7 then
        truncated.take (sentence_end.toNat + 1)
      else
        let word_end := rfindSub truncated " "
        -- `word_end > max_length * 0.8`, exactly, cross-multiplied
        if 5 * word_end > (max_length : Int) * 4 then
          truncated.take word_end.toNat ++ "..."
        else
          truncated ++ "..."

/-- Errors of the guarded `requests.get` call (content_extractor.py lines
57-86); each is caught and turned into an immediate `None` return.  A
non-2xx status (`raise_for_status`) raises `HTTPError`, a subclass of
`RequestException`, caught by the same handlers. -/
inductive FetchError
  | connectTimeout
  | readTimeout
  | generalTimeout
  | sslError
  | requestError
deriving DecidableEq, Repr

/-- Outcome of the network fetch: an error, or a parsed page.  The
BeautifulSoup document is external, hence an abstract type parameter. -/
inductive FetchOutcome (Soup : Type)
  | fetchFailed (e : FetchError)
  | fetched (soup : Soup)

/-- The URL-based strategy dispatch of `extract_article_content`
(content_extractor.py lines 94-103).  The three per-site extraction
functions are external collaborators over the abstract soup; each wraps its
body in a catch-all `try`, so they are total `Option`-valued functions. -/
def extractStrategy {Soup : Type}
    (extractAdevarul extractBiziday extractGeneric : Soup → Option String)
    (url : String) (soup : Soup) : Option String :=
  if containsSub (strToLower url) "adevarul.ro" then extractAdevarul soup
  else if containsSub (strToLower url) "biziday.ro" then extractBiziday soup
  else extractGeneric soup

/-- `extract_article_content` (content_extractor.py lines 36-117).  Every
failure mode resolves to `none`: each network error is caught and returns
`None`, and the whole body additionally sits in a catch-all `try`, so the
function never raises.  A fetched page whose extracted content is falsy or
not longer than 100 characters also returns `None` (line 105). -/
def extract_article_content {Soup : Type}
    (extractAdevarul extractBiziday extractGeneric : Soup → Option String)
    (url : String) (fetch : FetchOutcome Soup) : Option String :=
  match fetch with
  | .fetchFailed _ => none
  | .fetched soup =>
    let content :=
      extractStrategy extractAdevarul extractBiziday extractGeneric url soup
    match content with
    | some s => if 100 < s.length then some s else none
    | none => none

/-! ## Article ingestion (`save_articles` and helpers, tasks.py lines 324-683) -/

/-- The scraped article dict one adapter candidate consists of; exactly the
keys `save_articles`, `should_check_article_for_updates` and
`article_needs_update` touch. -/
structure ArticleData where
  link : DVal
  title : DVal
  summary : DVal
  content : DVal
  published_at : DVal
  timestamp : DVal
  updated_at : DVal
deriving DecidableEq, Repr

/-- The in-memory `NewsArticle` ORM object (models.py lines 18-31).  The
fields hold whatever Python assigned; `title`/`summary`/`link` are
`nullable=False` in the schema, so persisted rows carry `some` values
there.  Timestamps are absolute seconds (`Int`). -/
structure NewsArticle where
  title : Option String
  summary : Option String
  content : Option String
  link : Option String
  source : String
  published_at : Option Int
  updated_at : Option Int
deriving DecidableEq, Repr

/-- `UPDATE_CHECK_CONFIG` (tasks.py lines 550-558) as a record; fields in
source order (the `skip_content_refresh_on_timeout` key is never read). -/
structure UpdateCheckConfig where
  check_frequency_hours : String → Int
  max_article_age_days : Int
  max_checks_per_session : Nat
  enable_update_checks : Bool
  enable_content_refresh : Bool
  content_extraction_timeout : Nat

/-- The literal `UPDATE_CHECK_CONFIG` dict: check frequency 24h for
`Adevarul`/`Biziday` and 72h otherwise, 7-day age limit, 50 checks per
session, update checks and content refresh enabled, 20s extraction
timeout. -/
def UPDATE_CHECK_CONFIG : UpdateCheckConfig :=
  ⟨fun s => if s = "Adevarul" then 24 else if s = "Biziday" then 24 else 72,
   7, 50, true, true, 20⟩

/-- `datetime.fromisoformat(x.replace('Z', '+00:00'))`: external stdlib
parser, abstracted order-preservingly: a string of digits denotes that many
seconds since the epoch, anything else raises (modelled as `none`; every
call site wraps the parse in `try/except`). -/
def fromisoformat (s : String) : Option Int := (strToNat? s).map Int.ofNat

/-- The recurring parse idiom (e.g. tasks.py lines 342-346, 384-389):
`if d.get(k): try: fromisoformat(...) except: None`; falsy fields and parse
failures both yield `None`. -/
def parseTsField (v : DVal) : Option Int :=
  match v.get? with
  | some s => if s.isEmpty then none else fromisoformat s
  | none => none

/-- `ensure_romania_timezone` (tasks.py lines 560-573): converts an instant
to Europe/Bucharest.  A timezone conversion does not move the instant, so
on the absolute-seconds model it is the identity (the `None` passthrough of
the Python helper is handled by `Option.map` at the call sites that need
it, all of which guard against `None` first). -/
def ensure_romania_timezone (t : Int) : Int := t

/-- `should_check_article_for_updates` (tasks.py lines 575-625).  `now` is
`datetime.now(ROMANIA_TZ)`.  `(now - published_at).days` floors
(`Int.fdiv`), and `hours_since < frequency` over float hours is the exact
integer comparison in seconds.  The final block (lines 612-625) returns
`True` when the scraped `updated_at` is newer and otherwise falls through
to the default `return True` (parse errors there are caught and only
printed), so the function ends `true` in both cases. -/
def should_check_article_for_updates (cfg : UpdateCheckConfig) (now : Int)
    (existing : NewsArticle) (nd : ArticleData) : Bool :=
  if !cfg.enable_update_checks then false
  else
    match existing.updated_at with
    | none => true  -- always check if existing article has no updated_at
    | some exUpd =>
      let tooOld :=
        match existing.published_at with
        | some pub =>
          decide (Int.fdiv (now - ensure_romania_timezone pub) 86400 >
            cfg.max_article_age_days)
        | none => false
      if tooOld then false
      else if now - ensure_romania_timezone exUpd <
          cfg.check_frequency_hours existing.source * 3600 then false
      else true

/-- Priority 2 of `article_needs_update` (tasks.py lines 653-660): both
contents truthy and the length delta above 5 percent of the stored length;
the float percentage is modelled exactly over `Rat`. -/
def contentLengthChanged (existing : NewsArticle) (nd : ArticleData) : Bool :=
  match nd.content.get?, existing.content with
  | some nc, some ec =>
    if !nc.isEmpty && !ec.isEmpty then
      let old_length := ec.length
      let new_length := nc.length
      -- `abs(new-old)/old*100` as an exact rational (`mkRat n d = n / d`)
      let length_diff_percent : Rat :=
        if old_length > 0 then
          mkRat (((new_length : Int) - (old_length : Int)).natAbs * 100)
            old_length
        else 0
      decide (length_diff_percent > 5)
    else false
  | _, _ => false

/-- Priority 3 of `article_needs_update` (tasks.py lines 663-675): both
summaries truthy, stripped values differ, and the
`difflib.SequenceMatcher(None, old.lower(), new.lower()).ratio()` (external
stdlib, passed in as `ratio`) is below 0.8. -/
def summaryChanged (ratio : String → String → Rat)
    (existing : NewsArticle) (nd : ArticleData) : Bool :=
  match nd.summary.get?, existing.summary with
  | some ns, some es =>
    if !ns.isEmpty && !es.isEmpty then
      let old_summary := strTrim es
      let new_summary := strTrim ns
      if new_summary ≠ old_summary then
        decide (ratio (strToLower old_summary) (strToLower new_summary) <
          mkRat 8 10)
      else false
    else false
  | _, _ => false

/-- Priority 4 of `article_needs_update` (tasks.py lines 678-681): both
titles truthy and stripped titles differ. -/
def titleChanged (existing : NewsArticle) (nd : ArticleData) : Bool :=
  match nd.title.get?, existing.title with
  | some nt, some et =>
    if !nt.isEmpty && !et.isEmpty then decide (strTrim nt ≠ strTrim et) else false
  | _, _ => false

/-- `article_needs_update` (tasks.py lines 627-683).  Priority 1: a
candidate `updated_at` strictly newer than the stored one returns `True`;
a candidate `updated_at` with no stored one returns `True`; in every other
case control falls through to priorities 2-4, which are sequential
early-`return True` checks, i.e. a disjunction. -/
def article_needs_update (ratio : String → String → Rat)
    (existing : NewsArticle) (nd : ArticleData)
    (new_updated_at : Option Int) : Bool :=
  let rest := contentLengthChanged existing nd ||
    summaryChanged ratio existing nd || titleChanged existing nd
  match new_updated_at, existing.updated_at with
  | some nu, some eu =>
    if ensure_romania_timezone nu > ensure_romania_timezone eu then true
    else rest
  | some _, none => true  -- first time updated_at detected
  | none, _ => rest

/-- The metadata dict built by `extract_article_metadata`
(content_extractor.py lines 278-318): `format_for_database` strings. -/
structure ExtractionMetadata where
  published_at : Option String
  updated_at : Option String
deriving DecidableEq, Repr

/-- The `result` dict of `extract_with_guaranteed_timeout` (tasks.py lines
410-471): extracted content, metadata (present only when content was
found), and an error message on timeout or extraction exception. -/
structure ExtractionResult where
  content : Option String
  metadata : Option ExtractionMetadata
  error : Option String
deriving DecidableEq, Repr

/-- The threaded bounded extractor is external from `save_articles`'s point
of view (daemon thread + polling deadline, real time): it is passed in as
an oracle from `(url, source_hint, timeout_seconds)` to its result dict;
it never raises (its body is wrapped in try/except into `result`). -/
def BoundedExtractor := Option String → String → Nat → ExtractionResult

/-- Accumulated observable state of one `save_articles` run. -/
structure SaveState where
  db : List NewsArticle
  saved_count : Nat
  updated_count : Nat
  checked_count : Nat
  extractor_calls : List (Option String)
deriving Repr

/-- Replace the first article whose `link` matches (the ORM mutates the
object `filter_by(link=...).first()` returned). -/
def updateFirst (db : List NewsArticle) (link : Option String)
    (f : NewsArticle → NewsArticle) : List NewsArticle :=
  match db with
  | [] => []
  | a :: rest =>
    if a.link = link then f a :: rest else a :: updateFirst rest link f

/-- The enhanced-update branch of `save_articles` (tasks.py lines 393-527),
entered when the candidate's parsed `updated_at` and the stored one are
both present and the candidate's is strictly newer: re-extract via the
bounded extractor when content refresh is enabled, falling back to the
candidate's own fields on error, otherwise apply the fresh content and
metadata; when refresh is disabled do the basic update.  Returns the
mutated article. -/
def reextractUpdate (cfg : UpdateCheckConfig) (extractor : BoundedExtractor)
    (source : String) (existing : NewsArticle) (ad : ArticleData)
    (nu : Int) : NewsArticle × List (Option String) :=
  if cfg.enable_content_refresh then
    let timeout_seconds := min cfg.content_extraction_timeout 30
    let er := extractor existing.link (strToLower source) timeout_seconds
    let calls := [existing.link]
    if er.error.isSome then
      -- lines 478-484: extraction failed, basic update from scraped data
      ({ existing with
          updated_at := some nu,
          summary := ad.summary.getD existing.summary,
          content := ad.content.getD existing.content }, calls)
    else
      let fresh_content := er.content
      let fresh_metadata := er.metadata.getD ⟨none, none⟩
      let a :=
        if pyTruthy fresh_content then
          let fc := fresh_content.getD ""
          { existing with
              content := fresh_content,
              summary := if fc.length > 100 then
                  some (generate_summary_from_content fc 200)
                else existing.summary }
        else
          -- lines 499-503: re-extraction empty, use scraped data
          { existing with
              summary := ad.summary.getD existing.summary,
              content := ad.content.getD existing.content }
      let a :=
        match fresh_metadata.updated_at with
        | some s =>
          if !s.isEmpty then
            match fromisoformat s with
            | some fresh_updated_at => { a with updated_at := some fresh_updated_at }
            | none => { a with updated_at := some nu }
          else { a with updated_at := some nu }
        | none => { a with updated_at := some nu }
      (a, calls)
  else
    -- lines 522-527: content refresh disabled, basic update
    ({ existing with
        updated_at := some nu,
        summary := ad.summary.getD existing.summary,
        content := ad.content.getD existing.content }, [])

/-- The whole update applied to a duplicate that `article_needs_update`
approved (tasks.py lines 392-535).  Note the missing `else` at line 398:
when both timestamps are present but the candidate's is not strictly newer,
no field is written at all, yet `updated_count` is still incremented by the
caller. -/
def applyArticleUpdate (cfg : UpdateCheckConfig)
    (extractor : BoundedExtractor) (source : String)
    (existing : NewsArticle) (ad : ArticleData)
    (new_updated_at : Option Int) : NewsArticle × List (Option String) :=
  match new_updated_at, existing.updated_at with
  | some nu, some eu =>
    if ensure_romania_timezone nu > ensure_romania_timezone eu then
      reextractUpdate cfg extractor source existing ad nu
    else
      (existing, [])  -- no else branch in the source: nothing is written
  | _, _ =>
    -- lines 528-532: normal update without content re-extraction
    ({ existing with
        updated_at := new_updated_at,
        summary := ad.summary.getD existing.summary,
        content := ad.content.getD existing.content }, [])

/-- Processing of one candidate inside the `for` loop of `save_articles`
(tasks.py lines 335-536).  `article_data['link']`, `['title']` and
`['summary']` raise `KeyError` on absent keys, which propagates to the
run-level handler (`Except.error`, carrying the state reached so far);
every other per-candidate failure mode (falsy or malformed timestamps) is
handled locally. -/
def processCandidate (cfg : UpdateCheckConfig) (ratio : String → String → Rat)
    (extractor : BoundedExtractor) (now : Int) (source : String)
    (ad : ArticleData) (st : SaveState) : Except SaveState SaveState :=
  match ad.link.indexed with
  | .error _ => .error st
  | .ok linkVal =>
    match st.db.find? (fun a => a.link = linkVal) with
    | none =>
      -- NEW ARTICLE (lines 339-373)
      let published_at :=
        match parseTsField ad.published_at with
        | some t => some t
        | none => parseTsField ad.timestamp  -- legacy fallback, lines 349-353
      let updated_at := parseTsField ad.updated_at
      match ad.title.indexed with
      | .error _ => .error st
      | .ok titleVal =>
        match ad.summary.indexed with
        | .error _ => .error st
        | .ok summaryVal =>
          let article : NewsArticle :=
            ⟨titleVal, summaryVal, ad.content.get?, linkVal, source,
              published_at, updated_at⟩
          .ok { st with db := st.db ++ [article],
                        saved_count := st.saved_count + 1 }
    | some existing =>
      -- DUPLICATE FOUND (lines 375-536); this branch only uses `.get`
      -- accesses and guarded parses, so it cannot raise.
      if st.checked_count < cfg.max_checks_per_session &&
          should_check_article_for_updates cfg now existing ad then
        let st := { st with checked_count := st.checked_count + 1 }
        let new_updated_at := parseTsField ad.updated_at
        if article_needs_update ratio existing ad new_updated_at then
          let (article', calls) :=
            applyArticleUpdate cfg extractor source existing ad new_updated_at
          .ok { st with
                  db := updateFirst st.db linkVal (fun _ => article'),
                  updated_count := st.updated_count + 1,
                  extractor_calls := st.extractor_calls ++ calls }
        else
          .ok st  -- duplicate but no update needed, skip silently
      else
        .ok st  -- over the session cap or not eligible: skip

/-- The candidate loop of `save_articles`; the first uncaught exception
aborts the remaining iterations. -/
def saveArticlesLoop (cfg : UpdateCheckConfig) (ratio : String → String → Rat)
    (extractor : BoundedExtractor) (now : Int) (source : String) :
    List ArticleData → SaveState → Except SaveState SaveState
  | [], st => .ok st
  | ad :: rest, st =>
    match processCandidate cfg ratio extractor now source ad st with
    | .error st' => .error st'
    | .ok st' => saveArticlesLoop cfg ratio extractor now source rest st'

/-- Observable result of one `save_articles` run. -/
structure SaveResult where
  db : List NewsArticle
  saved_count : Nat
  updated_count : Nat
  checked_count : Nat
  extractor_calls : List (Option String)
  rolled_back : Bool
deriving Repr

/-- `save_articles` (tasks.py lines 324-547): run the loop and commit; on
any uncaught exception the run-level `except` rolls the session back, so
the database keeps its original contents (counters and extractor calls
reflect the work performed before the abort, observable only in logs). -/
def save_articles (cfg : UpdateCheckConfig) (ratio : String → String → Rat)
    (extractor : BoundedExtractor) (now : Int)
    (articles_data : List ArticleData) (source : String)
    (db : List NewsArticle) : SaveResult :=
  match saveArticlesLoop cfg ratio extractor now source articles_data
      ⟨db, 0, 0, 0, []⟩ with
  | .ok st =>
    ⟨st.db, st.saved_count, st.updated_count, st.checked_count,
      st.extractor_calls, false⟩
  | .error st =>
    ⟨db, st.saved_count, st.updated_count, st.checked_count,
      st.extractor_calls, true⟩

/-! ## Facebook profile refresh (`update_facebook_profile`, tasks.py lines
810-953) -/

/-- A Python value stored in the fresh profile dict or on the ORM profile
object: `None`, string, int, bool, list of strings, or a datetime
(absolute seconds). -/
inductive PyObj
  | null
  | str (s : String)
  | int (n : Int)
  | bool (b : Bool)
  | strlist (xs : List String)
  | dt (t : Int)
deriving DecidableEq, Repr

/-- The fresh profile dict: `none` means the key is absent. -/
def FbData := String → Option PyObj

/-- The ORM profile object as attribute map (`getattr` with default
`None` treats a missing attribute like `None`). -/
def FbProfile := String → Option PyObj

/-- Python `str(...)` on the values `update_field_if_different` receives. -/
def pyStr : PyObj → String
  | .null => "None"
  | .str s => s
  | .int n => toString n
  | .bool b => if b then "True" else "False"
  | .strlist xs => toString xs
  | .dt t => toString t

/-- Python truthiness of a `PyObj`. -/
def PyObj.truthy : PyObj → Bool
  | .null => false
  | .str s => !s.isEmpty
  | .int n => n ≠ 0
  | .bool b => b
  | .strlist xs => !xs.isEmpty
  | .dt _ => true

/-- `safe_get_string` inside `update_facebook_profile` (tasks.py lines
819-823): `data.get(key, default)`; a string value is stripped, a
non-string present value returns the default unstripped, and an absent key
returns the (string) default which then passes the `isinstance` test and
is stripped. -/
def fb_safe_get_string (d : FbData) (key dflt : String) : String :=
  match d key with
  | some (.str s) => strTrim s
  | some _ => dflt
  | none => strTrim dflt

/-- `current_value = getattr(existing_profile, field_name, None)` followed
by the `None → ''` normalization of `update_field_if_different`. -/
def currentFieldValue : Option PyObj → PyObj
  | some w => if w = PyObj.null then PyObj.str "" else w
  | none => PyObj.str ""

/-- `update_field_if_different` (tasks.py lines 826-841) acting on the
profile together with the `updated` flag: `None` on either side is
converted to `''` first; the field is assigned (and the flag set) iff the
`str(...)` images differ. -/
def update_field_if_different (st : FbProfile × Bool) (field_name : String)
    (nv : PyObj) : FbProfile × Bool :=
  let current_value := currentFieldValue (st.1 field_name)
  let new_value := if nv = PyObj.null then PyObj.str "" else nv
  if pyStr new_value ≠ pyStr current_value then
    (fun f => if f = field_name then some new_value else st.1 f, true)
  else st

/-- One scheduled field update: `none` in the second component means the
guard in front of the corresponding `update_field_if_different` call
failed, so the call is skipped. -/
def applyFieldUpdate (st : FbProfile × Bool)
    (e : String × Option PyObj) : FbProfile × Bool :=
  match e.2 with
  | none => st
  | some v => update_field_if_different st e.1 v

/-- `','.join(new_accounts) if new_accounts else ''` (tasks.py lines
849-850): falsy values give `''`; joining a list concatenates with commas;
joining a string joins its characters; any other truthy value raises
`TypeError`, which the run-level `except` turns into a rollback. -/
def connected_accounts_value (d : FbData) : Except Unit String :=
  match d "connected_accounts" with
  | none => .ok ""
  | some (.strlist xs) => if xs.isEmpty then .ok "" else .ok (",".intercalate xs)
  | some (.str s) =>
    if s.isEmpty then .ok ""
    else .ok (",".intercalate (s.toList.map (fun c => String.mk [c])))
  | some .null => .ok ""
  | some (.int n) => if n = 0 then .ok "" else .error ()
  | some (.bool b) => if b then .error () else .ok ""
  | some (.dt _) => .error ()

/-- `str(value).isdigit()` guard for the social-metric counts (tasks.py
lines 903-913): an int passes iff non-negative (its decimal string has no
sign), a string iff non-empty and all digits; the update value is
`int(value)`. -/
def digitGuardValue : Option PyObj → Option PyObj
  | some (.int n) => if n ≥ 0 then some (.int n) else none
  | some (.str s) =>
    if !s.isEmpty && s.toList.all Char.isDigit then
      some (.int ((strToNat? s).getD 0))
    else none
  | _ => none

/-- `isinstance(value, bool)` guard for the status flags (tasks.py lines
916-922); the dict default applies on an absent key. -/
def boolGuardValue (dflt : Bool) : Option PyObj → Option PyObj
  | some (.bool b) => some (.bool b)
  | some _ => none
  | none => some (.bool dflt)

/-- The `last_scraped_at` update (tasks.py lines 927-937): only a truthy
value enters the block, only a string is parsed; a parse failure
(`ValueError`) falls back to `datetime.now()`; a truthy non-string value
skips the update silently. -/
def lastScrapedValue (now : Int) : Option PyObj → Option PyObj
  | some (.str s) =>
    if s.isEmpty then none
    else
      match fromisoformat s with
      | some t => some (.dt t)
      | none => some (.dt now)
  | some _ => none  -- truthy non-string: isinstance fails, nothing happens
  | none => none

/-- The ordered list of `update_field_if_different` calls performed by
`update_facebook_profile` (tasks.py lines 845-937), with each guarded call
represented by an optional value.  The values only read the fresh dict,
never the profile, so scheduling them up front is observationally the
sequential execution of the source. -/
def fb_field_updates (d : FbData) (ca : String) (now : Int) :
    List (String × Option PyObj) :=
  [("name", some (.str (fb_safe_get_string d "name" ""))),
   ("bio", some (.str (fb_safe_get_string d "bio" ""))),
   ("connected_accounts", some (.str ca)),
   ("username", some (.str (fb_safe_get_string d "username" ""))),
   ("location", some (.str (fb_safe_get_string d "location" ""))),
   ("country", some (.str (fb_safe_get_string d "country" "RO"))),
   ("age_range", some (.str (fb_safe_get_string d "age_range" ""))),
   ("gender", some (.str (fb_safe_get_string d "gender" ""))),
   ("professional_title",
     some (.str (fb_safe_get_string d "professional_title" ""))),
   ("current_employer",
     some (.str (fb_safe_get_string d "current_employer" ""))),
   ("work_history", some (.str (fb_safe_get_string d "work_history" ""))),
   ("education", some (.str (fb_safe_get_string d "education" ""))),
   ("current_location",
     some (.str (fb_safe_get_string d "current_location" ""))),
   ("origin_location",
     some (.str (fb_safe_get_string d "origin_location" ""))),
   ("relationship_status",
     some (.str (fb_safe_get_string d "relationship_status" ""))),
   ("languages", some (.str (fb_safe_get_string d "languages" ""))),
   ("interests", some (.str (fb_safe_get_string d "interests" ""))),
   ("interests_detailed",
     some (.str (fb_safe_get_string d "interests_detailed" ""))),
   ("topics_discussed",
     some (.str (fb_safe_get_string d "topics_discussed" ""))),
   ("social_media_links",
     some (.str (fb_safe_get_string d "social_media_links" ""))),
   ("religious_info", some (.str (fb_safe_get_string d "religious_info" ""))),
   ("church_position", some (.str (fb_safe_get_string d "church_position" ""))),
   ("church_affiliation",
     some (.str (fb_safe_get_string d "church_affiliation" ""))),
   ("family_members", some (.str (fb_safe_get_string d "family_members" ""))),
   ("life_events", some (.str (fb_safe_get_string d "life_events" ""))),
   ("about_section", some (.str (fb_safe_get_string d "about_section" ""))),
   ("favorite_quotes", some (.str (fb_safe_get_string d "favorite_quotes" ""))),
   ("other_names", some (.str (fb_safe_get_string d "other_names" ""))),
   ("contact_email", some (.str (fb_safe_get_string d "contact_email" ""))),
   ("contact_phone", some (.str (fb_safe_get_string d "contact_phone" ""))),
   ("birthday", some (.str (fb_safe_get_string d "birthday" ""))),
   ("political_views", some (.str (fb_safe_get_string d "political_views" ""))),
   ("followers_count", digitGuardValue (d "followers_count")),
   ("friends_count", digitGuardValue (d "friends_count")),
   ("posts_count", digitGuardValue (d "posts_count")),
   ("is_verified", boolGuardValue false (d "is_verified")),
   ("is_public", boolGuardValue true (d "is_public")),
   ("scraping_method",
     some (.str (fb_safe_get_string d "scraping_method" "manual"))),
   ("last_scraped_at", lastScrapedValue now (d "last_scraped_at"))]

/-- Observable outcome of `update_facebook_profile`. -/
structure FbUpdateOutcome where
  profile : FbProfile
  updated : Bool
  rolled_back : Bool

/-- `update_facebook_profile` (tasks.py lines 810-953): run every field
update; when any change was made, stamp `updated_at` with `datetime.now()`
and commit; a `TypeError` from the `connected_accounts` join (the only
uncaught raiser in the body) hits the outer `except`, rolls the session
back and returns `{'updated': False, 'error': ...}`. -/
def update_facebook_profile (p : FbProfile) (d : FbData) (now : Int) :
    FbUpdateOutcome :=
  match connected_accounts_value d with
  | .error _ => ⟨p, false, true⟩
  | .ok ca =>
    let st := (fb_field_updates d ca now).foldl applyFieldUpdate (p, false)
    if st.2 then
      ⟨fun f => if f = "updated_at" then some (.dt now) else st.1 f,
        true, false⟩
    else ⟨st.1, false, false⟩

/-- The string-valued profile fields whose `update_field_if_different`
value is `safe_get_string` with default `''` (everything except
`country`, `scraping_method`, and the non-string-valued fields). -/
def fbClearedStringFields : List String :=
  ["name", "bio", "username", "location", "age_range", "gender",
   "professional_title", "current_employer", "work_history", "education",
   "current_location", "origin_location", "relationship_status", "languages",
   "interests", "interests_detailed", "topics_discussed",
   "social_media_links", "religious_info", "church_position",
   "church_affiliation", "family_members", "life_events", "about_section",
   "favorite_quotes", "other_names", "contact_email", "contact_phone",
   "birthday", "political_views"]

/-- The state reached by the candidate loop, whether or not it aborted
(used to reason about work performed before an exception). -/
def postState : Except SaveState SaveState → SaveState
  | .ok st => st
  | .error st => st

/-! ## Concrete fixtures used by witnesses and counterexamples -/

/-- A similarity oracle standing in for `difflib.SequenceMatcher.ratio`;
its value never matters on the paths exercised. -/
def noopRatio : String → String → Rat := fun _ _ => 0

/-- A bounded-extractor oracle that reports no content and no error; the
concrete runs below never reach it. -/
def noopExtractor : BoundedExtractor := fun _ _ _ => ⟨none, none, none⟩

/-- A stored article that was never stamped with an `updated_at`. -/
def c3Existing : NewsArticle :=
  ⟨some "T", some "S", some "C", some "https://x/1", "Biziday", some 0, none⟩

/-- A candidate identical to `c3Existing` on title, summary and content,
carrying no `updated_at` of its own. -/
def c3Candidate : ArticleData :=
  ⟨.str "https://x/1", .str "T", .str "S", .str "C", .absent, .absent,
    .absent⟩

/-- A stored Facebook profile whose only populated field is
`country = "DE"`. -/
def c10Profile : FbProfile :=
  fun f => if f = "country" then some (.str "DE") else none

/-- A fresh profile dict with every key missing. -/
def c10Data : FbData := fun _ => none

/-! ## Theorems -/

/-- Helper: the scheduler registration fold only ever appends Biziday or
Adevarul jobs, so it preserves "no Facebook runner". -/
theorem foldl_register_no_facebook (testing : Bool) :
    ∀ (config : List (String × SourceConfig)) (acc : List SchedulerJob),
      (∀ j ∈ acc, j.runner ≠ ScraperRunner.facebookRunner) →
      ∀ j ∈ config.foldl (registerSourceJob testing) acc,
        j.runner ≠ ScraperRunner.facebookRunner := by
  intro config
  induction config with
  | nil => intro acc h j hj; exact h j hj
  | cons e rest ih =>
    intro acc h j hj
    refine ih _ ?_ j hj
    intro j' hj'
    rcases e with ⟨name, sc⟩
    unfold registerSourceJob at hj'
    dsimp only at hj'
    split at hj'
    · exact h j' hj'
    · split at hj'
      · rcases List.mem_append.mp hj' with h1 | h2
        · exact h j' h1
        · simp only [List.mem_singleton] at h2
          subst h2
          simp
      · split at hj'
        · rcases List.mem_append.mp hj' with h1 | h2
          · exact h j' h1
          · simp only [List.mem_singleton] at h2
            subst h2
            simp
        · split at hj' <;> exact h j' hj'

/-- C1: if a source's guard is idle, then of the two serialized orders of
two concurrent non-blocking `try_begin` (lock acquire) calls for that
source — and by atomicity of `Lock.acquire(blocking=False)` every
interleaving is one of them — the first call returns true and marks the
source running, and the second is rejected: exactly one caller wins. -/
theorem c1_try_begin_exclusive (g : GuardState) (s : ScraperId)
    (h : g s = false) :
    (tryBegin g s).1 = true ∧ (tryBegin g s).2 s = true ∧
      (tryBegin (tryBegin g s).2 s).1 = false := by
  simp [tryBegin, h]

/-- Witness for C1 at the all-idle lock map and the `biziday` source. -/
theorem c1_try_begin_exclusive_witness :
    (tryBegin (fun _ => false) ScraperId.biziday).1 = true ∧
    (tryBegin (fun _ => false) ScraperId.biziday).2 ScraperId.biziday = true ∧
    (tryBegin (tryBegin (fun _ => false) ScraperId.biziday).2
        ScraperId.biziday).1 = false :=
  c1_try_begin_exclusive (fun _ => false) ScraperId.biziday rfl

/-- C6: every runner that acquired its guard releases it on the `finally`
path no matter how the body ends (normal completion, early return for a
missing script or missing input, timeout, or any exception), so
`get_scraper_status` reports the source idle again after the run. -/
theorem c6_guard_released_after_run (g : GuardState)
    (b1 b2 : NewsBodyOutcome) (fb : FbBodyOutcome) (pin : Option String) :
    (g .biziday = false →
      get_scraper_status (run_biziday_scraper g b1).1 .biziday = "idle") ∧
    (g .adevarul = false →
      get_scraper_status (run_adevarul_scraper g b2).1 .adevarul = "idle") ∧
    (g .facebook = false →
      get_scraper_status (run_facebook_scraper g pin fb).1 .facebook
        = "idle") := by
  refine ⟨fun h => ?_, fun h => ?_, fun h => ?_⟩
  · simp [run_biziday_scraper, tryBegin, releaseGuard, get_scraper_status, h]
  · simp [run_adevarul_scraper, tryBegin, releaseGuard, get_scraper_status, h]
  · cases pin <;>
      simp [run_facebook_scraper, tryBegin, releaseGuard,
        get_scraper_status, h]

/-- Witness for C6 at the all-idle lock map, an exception-raising news
body and a Selenium-error Facebook body with no profile input. -/
theorem c6_guard_released_after_run_witness :
    get_scraper_status
      (run_biziday_scraper (fun _ => false) NewsBodyOutcome.raised).1
      ScraperId.biziday = "idle" ∧
    get_scraper_status
      (run_adevarul_scraper (fun _ => false) NewsBodyOutcome.timedOut).1
      ScraperId.adevarul = "idle" ∧
    get_scraper_status
      (run_facebook_scraper (fun _ => false) none FbBodyOutcome.raised).1
      ScraperId.facebook = "idle" := by
  have h := c6_guard_released_after_run (fun _ => false)
    NewsBodyOutcome.raised NewsBodyOutcome.timedOut FbBodyOutcome.raised none
  exact ⟨h.1 rfl, h.2.1 rfl, h.2.2 rfl⟩

/-- Helper: `extract_article_content` on a fetch error, definitionally. -/
theorem extract_article_content_err {Soup : Type}
    (eA eB eG : Soup → Option String) (url : String) (e : FetchError) :
    extract_article_content eA eB eG url (.fetchFailed e) = none := rfl

/-- Helper: `extract_article_content` on a fetched page, definitionally. -/
theorem extract_article_content_fetched {Soup : Type}
    (eA eB eG : Soup → Option String) (url : String) (soup : Soup) :
    extract_article_content eA eB eG url (.fetched soup) =
      (match extractStrategy eA eB eG url soup with
       | some s => if 100 < s.length then some s else none
       | none => none) := rfl

/-- C8: `extract_article_content` is a total function into an optional
result (every network error is caught, the per-site strategies catch their
own exceptions, and a final catch-all wraps the body, so it never raises);
a fetch error yields `none`, a successful result is always strictly longer
than 100 characters, and a fetched page whose extracted content is absent
or not longer than 100 characters yields `none`. -/
theorem c8_extract_never_short (Soup : Type)
    (eA eB eG : Soup → Option String) (url : String)
    (fetch : FetchOutcome Soup) :
    (∀ e, fetch = .fetchFailed e →
      extract_article_content eA eB eG url fetch = none) ∧
    (∀ s, extract_article_content eA eB eG url fetch = some s →
      100 < s.length) ∧
    (∀ soup, fetch = .fetched soup →
      (extractStrategy eA eB eG url soup = none ∨
        ∃ s, extractStrategy eA eB eG url soup = some s ∧ s.length ≤ 100) →
      extract_article_content eA eB eG url fetch = none) := by
  refine ⟨fun e he => ?_, fun s hs => ?_, fun soup hsoup hshort => ?_⟩
  · subst he; rfl
  · cases fetch with
    | fetchFailed e => rw [extract_article_content_err] at hs; cases hs
    | fetched soup =>
      rw [extract_article_content_fetched] at hs
      cases hc : extractStrategy eA eB eG url soup with
      | none => rw [hc] at hs; cases hs
      | some c =>
        rw [hc] at hs
        dsimp only at hs
        split at hs
        · cases hs; assumption
        · cases hs
  · subst hsoup
    rw [extract_article_content_fetched]
    rcases hshort with hnone | ⟨s, hsome, hlen⟩
    · rw [hnone]
    · rw [hsome]
      dsimp only
      split
      · omega
      · rfl

/-- Witness for C8: a fetched page whose strategy extracts a short string
resolves to `none`. -/
theorem c8_extract_never_short_witness :
    extract_article_content (fun _ => some "short") (fun _ => some "short")
      (fun _ => some "short") "https://example.com/a"
      (FetchOutcome.fetched ()) = none :=
  (c8_extract_never_short Unit (fun _ => some "short") (fun _ => some "short")
      (fun _ => some "short") "https://example.com/a"
      (FetchOutcome.fetched ())).2.2 () rfl
    (Or.inr ⟨"short", by decide, by decide⟩)

/-- C9: the scheduler never registers a recurring or initial job that runs
the Facebook scraper, for any configuration and either testing mode; the
manual path (`/scrape-facebook` → `run_facebook_scraper`) takes the same
per-source guard, so a manual Facebook run while the Facebook guard is
held is rejected (`already running` result, HTTP 400 from the endpoint). -/
theorem c9_facebook_manual_only (config : List (String × SourceConfig))
    (testing : Bool) (g : GuardState) (pin : Option String)
    (body : FbBodyOutcome) (p : String) (h : g .facebook = true) :
    (∀ j ∈ start_scheduler_jobs config testing,
      j.runner ≠ ScraperRunner.facebookRunner) ∧
    (run_facebook_scraper g pin body).2 = FbRunResult.alreadyRunning ∧
    (scrape_facebook g (some p) body).2 = 400 := by
  refine ⟨?_, ?_, ?_⟩
  · intro j hj
    unfold start_scheduler_jobs at hj
    rcases List.mem_append.mp hj with h1 | h2
    · exact foldl_register_no_facebook testing config [] (by simp) j h1
    · simp only [List.mem_cons, List.not_mem_nil, or_false] at h2
      rcases h2 with rfl | rfl <;> simp
  · simp [run_facebook_scraper, tryBegin, h]
  · unfold scrape_facebook
    dsimp only
    split
    · rfl
    · have hrun : (run_facebook_scraper g (some (strTrim p)) body).2 =
          FbRunResult.alreadyRunning := by
        simp [run_facebook_scraper, tryBegin, h]
      rw [hrun]
      rfl

/-- Witness for C9 with the fallback configuration shape, the Facebook
guard held, and a concrete manual request. -/
theorem c9_facebook_manual_only_witness :
    (∀ j ∈ start_scheduler_jobs
        [("biziday", ⟨120, true, none, "Biziday"⟩),
         ("adevarul", ⟨120, true, none, "Adevarul"⟩),
         ("facebook", ⟨180, true, none, "Facebook"⟩)] false,
      j.runner ≠ ScraperRunner.facebookRunner) ∧
    (run_facebook_scraper (fun s => s = ScraperId.facebook) (some "zuck")
        (FbBodyOutcome.seleniumSuccess true)).2
      = FbRunResult.alreadyRunning ∧
    (scrape_facebook (fun s => s = ScraperId.facebook) (some "zuck")
        (FbBodyOutcome.seleniumSuccess true)).2 = 400 :=
  c9_facebook_manual_only
    [("biziday", ⟨120, true, none, "Biziday"⟩),
     ("adevarul", ⟨120, true, none, "Adevarul"⟩),
     ("facebook", ⟨180, true, none, "Facebook"⟩)] false
    (fun s => s = ScraperId.facebook) (some "zuck")
    (FbBodyOutcome.seleniumSuccess true) "zuck" (by decide)

/-- Helper: a single candidate step never pushes the checked counter past
the session cap. -/
theorem processCandidate_checked_le (cfg : UpdateCheckConfig)
    (ratio : String → String → Rat) (extr : BoundedExtractor) (now : Int)
    (source : String) (ad : ArticleData) (st : SaveState)
    (h : st.checked_count ≤ cfg.max_checks_per_session) :
    (postState (processCandidate cfg ratio extr now source ad st)).checked_count
      ≤ cfg.max_checks_per_session := by
  unfold processCandidate
  split
  · exact h
  · split
    · repeat' split
      all_goals simp only [postState]
      all_goals exact h
    · split
      · rename_i hcond
        simp only [Bool.and_eq_true, decide_eq_true_eq] at hcond
        dsimp only
        split
        · simp only [postState]
          omega
        · simp only [postState]
          omega
      · exact h

/-- Helper: the candidate loop keeps the checked counter within the cap,
whether or not it aborts. -/
theorem saveArticlesLoop_checked_le (cfg : UpdateCheckConfig)
    (ratio : String → String → Rat) (extr : BoundedExtractor) (now : Int)
    (source : String) :
    ∀ (articles : List ArticleData) (st : SaveState),
      st.checked_count ≤ cfg.max_checks_per_session →
      (postState (saveArticlesLoop cfg ratio extr now source articles
          st)).checked_count ≤ cfg.max_checks_per_session := by
  intro articles
  induction articles with
  | nil => intro st h; exact h
  | cons ad rest ih =>
    intro st h
    unfold saveArticlesLoop
    have hstep := processCandidate_checked_le cfg ratio extr now source ad st h
    cases hpc : processCandidate cfg ratio extr now source ad st with
    | error st' =>
      rw [hpc] at hstep
      exact hstep
    | ok st' =>
      rw [hpc] at hstep
      exact ih st' hstep

/-- C5: in any single `save_articles` run — any configuration, similarity
oracle, extractor, clock, candidate list and database — the number of
duplicate articles checked for updates never exceeds the configured
per-run cap `max_checks_per_session`, whose default in
`UPDATE_CHECK_CONFIG` is 50. -/
theorem c5_checked_count_capped (cfg : UpdateCheckConfig)
    (ratio : String → String → Rat) (extr : BoundedExtractor) (now : Int)
    (articles : List ArticleData) (source : String)
    (db : List NewsArticle) :
    (save_articles cfg ratio extr now articles source db).checked_count ≤
      cfg.max_checks_per_session ∧
    UPDATE_CHECK_CONFIG.max_checks_per_session = 50 := by
  constructor
  · have h := saveArticlesLoop_checked_le cfg ratio extr now source articles
      ⟨db, 0, 0, 0, []⟩ (Nat.zero_le _)
    unfold save_articles
    cases hpc : saveArticlesLoop cfg ratio extr now source articles
        ⟨db, 0, 0, 0, []⟩ with
    | error st => rw [hpc] at h; exact h
    | ok st => rw [hpc] at h; exact h
  · rfl

/-- C3 (amended): for a stored article with no `updated_at`, the
eligibility gate always passes (it is always checked), and any candidate
that carries a parseable `updated_at` of its own is classified as needing
an update ("first enrichment") even when content, summary and title are
identical; the original claim fails for candidates with no parseable
`updated_at`, which fall through to the content/summary/title comparisons
and are classified unchanged when identical (see the counterexample). -/
theorem c3_null_updated_at_first_enrichment (cfg : UpdateCheckConfig)
    (ratio : String → String → Rat) (now nu : Int) (ex : NewsArticle)
    (ad : ArticleData) (hcfg : cfg.enable_update_checks = true)
    (hex : ex.updated_at = none)
    (hnu : parseTsField ad.updated_at = some nu) :
    should_check_article_for_updates cfg now ex ad = true ∧
    article_needs_update ratio ex ad (parseTsField ad.updated_at) = true := by
  constructor
  · unfold should_check_article_for_updates
    rw [hcfg, hex]
    rfl
  · unfold article_needs_update
    rw [hnu, hex]

/-- Witness for C3: a stored article without `updated_at` plus an
identical candidate that does carry one is eligible and classified as
needing an update. -/
theorem c3_null_updated_at_first_enrichment_witness :
    should_check_article_for_updates UPDATE_CHECK_CONFIG 0 c3Existing
      ⟨.str "https://x/1", .str "T", .str "S", .str "C", .absent, .absent,
        .str "100"⟩ = true ∧
    article_needs_update noopRatio c3Existing
      ⟨.str "https://x/1", .str "T", .str "S", .str "C", .absent, .absent,
        .str "100"⟩
      (parseTsField (DVal.str "100")) = true :=
  c3_null_updated_at_first_enrichment UPDATE_CHECK_CONFIG noopRatio 0 100
    c3Existing
    ⟨.str "https://x/1", .str "T", .str "S", .str "C", .absent, .absent,
      .str "100"⟩
    rfl rfl (by decide)

/-- Counterexample to C3 as stated: a stored article whose `updated_at` is
null and a candidate identical on content, summary and title but without
an `updated_at` of its own is NOT classified as changed — the change
detector returns false and a full `save_articles` run writes nothing. -/
theorem c3_identical_candidate_not_changed :
    article_needs_update noopRatio c3Existing c3Candidate
      (parseTsField c3Candidate.updated_at) = false ∧
    (save_articles UPDATE_CHECK_CONFIG noopRatio noopExtractor 0
      [c3Candidate] "Biziday" [c3Existing]).updated_count = 0 ∧
    (save_articles UPDATE_CHECK_CONFIG noopRatio noopExtractor 0
      [c3Candidate] "Biziday" [c3Existing]).db = [c3Existing] := by
  refine ⟨by decide, by decide, by decide⟩

/-- Helper: an update on another field leaves this field's value alone. -/
theorem applyFieldUpdate_fst_ne (st : FbProfile × Bool) (g : String)
    (vo : Option PyObj) (f : String) (h : ¬ f = g) :
    (applyFieldUpdate st (g, vo)).1 f = st.1 f := by
  cases vo with
  | none => rfl
  | some v =>
    simp only [applyFieldUpdate, update_field_if_different]
    split <;> split <;> simp [h]

/-- Helper: a skipped (guard-failed) update changes nothing. -/
theorem applyFieldUpdate_fst_none (st : FbProfile × Bool) (g f : String) :
    (applyFieldUpdate st (g, none)).1 f = st.1 f := rfl

/-- Helper: an update whose non-null value differs (as `str(...)`) from
the current value assigns it. -/
theorem applyFieldUpdate_fst_set (st : FbProfile × Bool) (f : String)
    (v : PyObj) (hv : ¬ v = PyObj.null)
    (hchg : pyStr v ≠ pyStr (currentFieldValue (st.1 f))) :
    (applyFieldUpdate st (f, some v)).1 f = some v := by
  simp only [applyFieldUpdate, update_field_if_different, if_neg hv]
  rw [if_pos hchg]
  simp

/-- Helper: an update whose non-null value is already the field's exact
value is a no-op on it. -/
theorem applyFieldUpdate_fst_noop (st : FbProfile × Bool) (f : String)
    (v : PyObj) (hv : ¬ v = PyObj.null) (heq : st.1 f = some v) :
    (applyFieldUpdate st (f, some v)).1 f = some v := by
  simp only [applyFieldUpdate, update_field_if_different, heq,
    currentFieldValue, if_neg hv]
  split
  · simp
  · exact heq

/-- Helper: folding updates in which every entry for field `f` either
carries its current value or is skipped leaves `f` unchanged. -/
theorem foldl_applyFieldUpdate_keep (f : String) (v : PyObj)
    (hv : ¬ v = PyObj.null) :
    ∀ (ups : List (String × Option PyObj)) (st : FbProfile × Bool),
      st.1 f = some v →
      (∀ w, (f, w) ∈ ups → w = some v ∨ w = none) →
      (ups.foldl applyFieldUpdate st).1 f = some v := by
  intro ups
  induction ups with
  | nil => intro st h _; exact h
  | cons e rest ih =>
    intro st h hu
    rcases e with ⟨g, wo⟩
    rw [List.foldl_cons]
    by_cases hg : g = f
    · subst hg
      rcases hu wo (List.mem_cons_self _ _) with hw | hw
      · subst hw
        exact ih _ (applyFieldUpdate_fst_noop st g v hv h)
          (fun w hw => hu w (List.mem_cons_of_mem _ hw))
      · subst hw
        exact ih _ (by rw [applyFieldUpdate_fst_none]; exact h)
          (fun w hw => hu w (List.mem_cons_of_mem _ hw))
    · have hne : ¬ f = g := fun hf => hg hf.symm
      exact ih _ (by rw [applyFieldUpdate_fst_ne st g wo f hne]; exact h)
        (fun w hw => hu w (List.mem_cons_of_mem _ hw))

/-- Helper: if the updates contain an entry setting field `f` to a
non-null value that differs from the current one, and every other entry
for `f` is that same value or skipped, the fold ends with `f` set. -/
theorem foldl_applyFieldUpdate_sets (f : String) (v : PyObj)
    (hv : ¬ v = PyObj.null) :
    ∀ (ups : List (String × Option PyObj)) (st : FbProfile × Bool),
      (f, some v) ∈ ups →
      (∀ w, (f, w) ∈ ups → w = some v ∨ w = none) →
      pyStr v ≠ pyStr (currentFieldValue (st.1 f)) →
      (ups.foldl applyFieldUpdate st).1 f = some v := by
  intro ups
  induction ups with
  | nil => intro st hmem; exact absurd hmem (List.not_mem_nil _)
  | cons e rest ih =>
    intro st hmem hu hchg
    rcases e with ⟨g, wo⟩
    rw [List.foldl_cons]
    by_cases hg : g = f
    · subst hg
      rcases hu wo (List.mem_cons_self _ _) with hw | hw
      · subst hw
        exact foldl_applyFieldUpdate_keep g v hv rest _
          (applyFieldUpdate_fst_set st g v hv hchg)
          (fun w hw => hu w (List.mem_cons_of_mem _ hw))
      · subst hw
        have hmem' : (g, some v) ∈ rest := by
          rcases List.mem_cons.mp hmem with he | hm
          · exact absurd (congrArg Prod.snd he) (by simp)
          · exact hm
        exact ih _ hmem' (fun w hw => hu w (List.mem_cons_of_mem _ hw))
          (by rw [applyFieldUpdate_fst_none]; exact hchg)
    · have hne : ¬ f = g := fun hf => hg hf.symm
      have hmem' : (f, some v) ∈ rest := by
        rcases List.mem_cons.mp hmem with he | hm
        · exact absurd (congrArg Prod.fst he) hne
        · exact hm
      exact ih _ hmem' (fun w hw => hu w (List.mem_cons_of_mem _ hw))
        (by rw [applyFieldUpdate_fst_ne st g wo f hne]; exact hchg)

/-- C10 (amended): in `update_facebook_profile`, for every string-valued
profile field updated through `safe_get_string` with default `''` (all of
them except `country`, default `'RO'`, and `scraping_method`, default
`'manual'`), if the fresh profile data omits the field or holds a
non-string value while the stored profile holds a non-empty string, the
stored value is overwritten with the empty string — a refresh with missing
fields clears previously stored profile data rather than leaving it
unchanged; `country` and `scraping_method` are instead reset to their
non-empty defaults (see the counterexample), which is the only part of the
original claim that fails. -/
theorem c10_missing_fields_cleared (p : FbProfile) (d : FbData) (now : Int)
    (f s : String)
    (hf : f ∈ fbClearedStringFields)
    (hd : d f = none ∨ ∃ v, d f = some v ∧ ∀ t, v ≠ PyObj.str t)
    (hjoin : ∃ ca, connected_accounts_value d = Except.ok ca)
    (hp : p f = some (PyObj.str s))
    (hs : s.isEmpty = false) :
    (update_facebook_profile p d now).profile f = some (PyObj.str "") := by
  obtain ⟨ca, hca⟩ := hjoin
  have hval : fb_safe_get_string d f "" = "" := by
    rcases hd with hd | ⟨v, hv, hnv⟩
    · unfold fb_safe_get_string
      rw [hd]
      rfl
    · unfold fb_safe_get_string
      rw [hv]
      cases v with
      | null => rfl
      | str t => exact absurd rfl (hnv t)
      | int n => rfl
      | bool b => rfl
      | strlist xs => rfl
      | dt t => rfl
  have hs' : ¬ (("" : String) = s) := by
    intro h
    rw [← h] at hs
    exact absurd hs (by decide)
  have hchg : pyStr (PyObj.str "") ≠ pyStr (currentFieldValue (p f)) := by
    rw [hp]
    simpa [currentFieldValue, pyStr] using hs'
  have hfu : ¬ f = "updated_at" := fun h => absurd (h ▸ hf) (by decide)
  have hcore : ((f, some (PyObj.str "")) ∈ fb_field_updates d ca now) ∧
      ∀ w, (f, w) ∈ fb_field_updates d ca now →
        w = some (PyObj.str "") ∨ w = none := by
    simp only [fbClearedStringFields, List.mem_cons, List.not_mem_nil,
      or_false] at hf
    rcases hf with rfl|rfl|rfl|rfl|rfl|rfl|rfl|rfl|rfl|rfl|rfl|rfl|rfl|rfl|
      rfl|rfl|rfl|rfl|rfl|rfl|rfl|rfl|rfl|rfl|rfl|rfl|rfl|rfl|rfl|rfl <;>
      exact ⟨by simp [fb_field_updates, hval], by
        intro w hw
        simp only [fb_field_updates, List.mem_cons, List.not_mem_nil,
          or_false, Prod.mk.injEq, String.reduceEq, false_and, false_or,
          true_and] at hw
        rw [hval] at hw
        exact Or.inl hw⟩
  have hmain : ((fb_field_updates d ca now).foldl applyFieldUpdate
      (p, false)).1 f = some (PyObj.str "") :=
    foldl_applyFieldUpdate_sets f (PyObj.str "") (by simp) _ _
      hcore.1 hcore.2 hchg
  unfold update_facebook_profile
  rw [hca]
  dsimp only
  split
  · dsimp only
    rw [if_neg hfu]
    exact hmain
  · exact hmain

set_option maxRecDepth 4096 in
/-- Witness for C10 (amended): a stored profile with `bio = "old bio"`
refreshed from a dict with no keys at all ends with `bio = ""`. -/
theorem c10_missing_fields_cleared_witness :
    (update_facebook_profile
      (fun f => if f = "bio" then some (PyObj.str "old bio") else none)
      (fun _ => none) 0).profile "bio" = some (PyObj.str "") :=
  c10_missing_fields_cleared
    (fun f => if f = "bio" then some (PyObj.str "old bio") else none)
    (fun _ => none) 0 "bio" "old bio" (by decide) (Or.inl rfl) ⟨"", rfl⟩
    rfl (by decide)

set_option maxRecDepth 16384 in
/-- Counterexample to C10 as stated: for the string-valued field
`country`, a refresh whose dict omits every key overwrites a stored
`"DE"` with the non-empty default `"RO"`, not with the empty string. -/
theorem c10_country_reset_to_default :
    (update_facebook_profile c10Profile c10Data 0).profile "country"
      = some (PyObj.str "RO") ∧
    (update_facebook_profile c10Profile c10Data 0).profile "country"
      ≠ some (PyObj.str "") := by
  refine ⟨by decide, by decide⟩
